import Mathlib

/-!
Verification of the gin-handler-wrapper repository: the tag-driven
outbound request encoder (resty client side), the inbound default decoder
(gin server side), the client/server pipelines, and the arity wrappers.

Go `error` values are modelled by the inductive `GoError`; `errors.New`
allocations are `newError`, library-produced errors (transport,
json.Unmarshal, gin binding) are `external`, and the two named sentinel
errors of the repository are dedicated constructors.  Machine values put
into a body or compared by a JSON round trip are an abstract type `V`.
-/

/-- Model of Go `error` values in this code base.  The sentinels
`ErrDecoderReturnedWrongType` and `ErrEncoderReceivedWrongType` are
distinct `errors.New` allocations, so they get their own constructors. -/
inductive GoError where
  | newError (msg : String)
  | external (tag : String)
  | errDecoderReturnedWrongType
  | errEncoderReceivedWrongType
deriving DecidableEq, Repr

/-- Model of a Go `any` value that must be asserted to a target type `O`:
`typed o` is a value whose runtime type matches `O` (assertion succeeds),
`other` is `nil` or a value of a different runtime type (assertion fails). -/
inductive AnyVal (O : Type) where
  | typed (o : O)
  | other
deriving DecidableEq, Repr

/-- One exported-or-not struct field of the input value, as seen by the
reflective encoder: its visibility, whether its value is a nil pointer,
its five relevant tags (empty string means the tag is absent, matching
`field.Tag.Get`), the `fmt.Sprintf("%v", ...)` string form of its value,
and the value itself (`fieldValue.Interface()`), abstracted as `V`. -/
structure StructField (V : Type) where
  exported : Bool
  isNilPtr : Bool
  pathTag : String
  queryTag : String
  formTag : String
  headerTag : String
  jsonTag : String
  strValue : String
  value : V
deriving DecidableEq, Repr

/-- The `input any` argument of the request encoder: a nil interface,
a nil pointer, a non-struct value (after pointer dereference), or a
struct given by its field list; `whole` is the original input value that
`req.SetBody(input)` would set. -/
inductive GoInput (V : Type) where
  | nilInterface
  | nilPtr
  | nonStruct (v : V)
  | structVal (fields : List (StructField V)) (whole : V)
deriving DecidableEq, Repr

/-- The body of an outgoing resty request: unset, the whole input value,
or the map of body-tagged fields. -/
inductive Body (V : Type) where
  | unset
  | whole (v : V)
  | fields (m : List (String × V))
deriving DecidableEq, Repr

/-- The outgoing resty request envelope accumulated by the encoder. -/
structure RestyRequest (V : Type) where
  pathParams : List (String × String) := []
  queryParams : List (String × String) := []
  headers : List (String × String) := []
  body : Body V := .unset
deriving DecidableEq, Repr

/-- Go map assignment `m[k] = v`: overwrite the binding of `k` if present,
otherwise append it. -/
def mapInsert {α : Type} (m : List (String × α)) (k : String) (v : α) :
    List (String × α) :=
  if m.any (fun p => p.1 = k) then
    m.map (fun p => if p.1 = k then (k, v) else p)
  else m ++ [(k, v)]

/-- Merge semantics of resty `SetPathParams` / `SetQueryParams` /
`SetHeaders`: each key of the new map is assigned into the request map. -/
def setParams (m new : List (String × String)) : List (String × String) :=
  new.foldl (fun acc p => mapInsert acc p.1 p.2) m

/-- The name part of a `json` struct tag: `strings.Split(jsonTag, ",")[0]`,
the prefix of the tag before the first comma. -/
def jsonNameOf (jsonTag : String) : String :=
  String.mk (jsonTag.toList.takeWhile (fun c => c ≠ ','))

/-- The local accumulators of `DefaultRequestEncoder`'s field loop:
`pathParams`, `queryParams`, `headers`, `bodyFields`, `hasBodyTag`. -/
structure EncodeAcc (V : Type) where
  pathParams : List (String × String)
  queryParams : List (String × String)
  headers : List (String × String)
  bodyFields : List (String × V)
  hasBodyTag : Bool
deriving DecidableEq, Repr

/-- The empty accumulator state before the field loop runs. -/
def emptyAcc {V : Type} : EncodeAcc V := ⟨[], [], [], [], false⟩

namespace RestyClient

/-- One iteration of the field loop of `DefaultRequestEncoder`
(part_000 lines 88-135): skip unexported fields, skip nil-pointer
fields, then classify by the first matching tag in the order
path, query, form, header, json; a json tag sets `hasBodyTag` and,
when its name part is not "-", inserts the field value into
`bodyFields`. -/
def encodeField {V : Type} (acc : EncodeAcc V) (f : StructField V) :
    EncodeAcc V :=
  if !f.exported then acc
  else if f.isNilPtr then acc
  else if f.pathTag ≠ "" then
    { acc with pathParams := mapInsert acc.pathParams f.pathTag f.strValue }
  else if f.queryTag ≠ "" then
    { acc with queryParams := mapInsert acc.queryParams f.queryTag f.strValue }
  else if f.formTag ≠ "" then
    { acc with queryParams := mapInsert acc.queryParams f.formTag f.strValue }
  else if f.headerTag ≠ "" then
    { acc with headers := mapInsert acc.headers f.headerTag f.strValue }
  else if f.jsonTag ≠ "" then
    { acc with hasBodyTag := true,
               bodyFields :=
                 if jsonNameOf f.jsonTag ≠ "-" then
                   mapInsert acc.bodyFields (jsonNameOf f.jsonTag) f.value
                 else acc.bodyFields }
  else acc

/-- DefaultRequestEncoder (part_000 lines 58-161): returns the updated
request and the returned Go error (always `none`).  Nil interface and nil
pointer inputs return the request untouched; a non-struct value becomes
the whole body; a struct is traversed by `encodeField` and the four
destinations are set from the accumulators, the body per the
`hasBodyTag` / emptiness conditions of lines 153-158. -/
def DefaultRequestEncoder {V : Type} (req : RestyRequest V)
    (input : GoInput V) : RestyRequest V × Option GoError :=
  match input with
  | .nilInterface => (req, none)
  | .nilPtr => (req, none)
  | .nonStruct v => ({ req with body := .whole v }, none)
  | .structVal fields whole =>
    let acc := fields.foldl encodeField emptyAcc
    let req1 :=
      if 0 < acc.pathParams.length then
        { req with pathParams := setParams req.pathParams acc.pathParams }
      else req
    let req2 :=
      if 0 < acc.queryParams.length then
        { req1 with queryParams := setParams req1.queryParams acc.queryParams }
      else req1
    let req3 :=
      if 0 < acc.headers.length then
        { req2 with headers := setParams req2.headers acc.headers }
      else req2
    let req4 :=
      if acc.hasBodyTag ∧ 0 < acc.bodyFields.length then
        { req3 with body := .fields acc.bodyFields }
      else if ¬ acc.hasBodyTag ∧ acc.pathParams.length = 0 ∧
              acc.queryParams.length = 0 ∧ acc.headers.length = 0 then
        { req3 with body := .whole whole }
      else req3
    (req4, none)

end RestyClient

/-- A field that the encoder routes to the body map: exported, not a nil
pointer, carrying no path, query, form or header tag, and carrying a
json tag. -/
def isBodyTagged {V : Type} (f : StructField V) : Bool :=
  f.exported && !f.isNilPtr && f.pathTag == "" && f.queryTag == "" &&
    f.formTag == "" && f.headerTag == "" && f.jsonTag != ""

/-- Whether at least one field of the struct carries a body (json) tag
that the encoder reaches. -/
def hasBodyTagged {V : Type} (fields : List (StructField V)) : Bool :=
  fields.any isBodyTagged

/-- Direct description of the mapping of exactly the body-tagged fields:
for each body-tagged field whose json name is not "-", its json name is
bound to its value; fields routed to path, query or header contribute
nothing. -/
def bodyFieldStep {V : Type} (m : List (String × V)) (f : StructField V) :
    List (String × V) :=
  if isBodyTagged f ∧ jsonNameOf f.jsonTag ≠ "-" then
    mapInsert m (jsonNameOf f.jsonTag) f.value
  else m

/-- The mapping of exactly the body-tagged fields of a struct. -/
def bodyTaggedMapping {V : Type} (fields : List (StructField V)) :
    List (String × V) :=
  fields.foldl bodyFieldStep []

/-- The observable inputs of a gin request context that the default
decoder inspects: the URI parameters `c.Params`, the request body length
`c.Request.ContentLength`, and the parsed query string
`c.Request.URL.Query()`. -/
structure GinContext where
  params : List (String × String)
  contentLength : Int
  queryPairs : List (String × String)
deriving DecidableEq, Repr

/-- An incoming resty response: its raw bytes, its `IsError` predicate,
and its `Status` description string. -/
structure RestyResponse where
  bytes : List Nat
  isError : Bool
  status : String
deriving DecidableEq, Repr

/-- The observable outcome of one run of a wrapped gin handler: either
the error handler was invoked with an error and the handler returned, or
the output encoder ran without error on the produced output. -/
inductive GinOutcome (O : Type) where
  | handledError (e : GoError)
  | success (o : O)
deriving DecidableEq, Repr

namespace GinServer

/-- One conditional binding pass of the default decoder: when `cond`
holds the gin binding function runs on the current `args` value,
otherwise the pass is skipped and `args` is unchanged with no error. -/
def bindPass {I : Type} (cond : Prop) [Decidable cond]
    (bind : GinContext → I → I × Option GoError) (c : GinContext)
    (args : I) : I × Option GoError :=
  if cond then bind c args else (args, none)

/-- DefaultDecoder (part_004 lines 576-604): starting from the zero
value of `I`, bind URI parameters when `c.Params` is nonempty, then the
request body when `ContentLength > 0`, then the query string when the
parsed query is nonempty; the first pass returning an error ends
decoding with that error, later passes do not run.  The three gin
binding functions (`ShouldBindUri`, `ShouldBind`, `ShouldBindQuery`) are
oracles `bindUri`, `bindBody`, `bindQuery`. -/
def DefaultDecoder {I : Type} [Inhabited I]
    (bindUri bindBody bindQuery : GinContext → I → I × Option GoError)
    (c : GinContext) : I × Option GoError :=
  match bindPass (0 < c.params.length) bindUri c default with
  | (a, some e) => (a, some e)
  | (a1, none) =>
    match bindPass (0 < c.contentLength) bindBody c a1 with
    | (a, some e) => (a, some e)
    | (a2, none) => bindPass (0 < c.queryPairs.length) bindQuery c a2

/-- WrapHandler (part_004 lines 642-678): decode, assert the decoded
`any` value to the input type, run the business handler, encode; the
first failing stage hands its error to the error handler and stops.  The
outcome records which error the error handler received, or the encoded
output. -/
def WrapHandler {I O : Type}
    (decoder : GinContext → AnyVal I × Option GoError)
    (encoder : O → Option GoError)
    (h : I → O × Option GoError)
    (c : GinContext) : GinOutcome O :=
  match decoder c with
  | (_, some e) => .handledError e
  | (argAny, none) =>
    match argAny with
    | .other => .handledError .errDecoderReturnedWrongType
    | .typed args =>
      match h args with
      | (_, some e) => .handledError e
      | (output, none) =>
        match encoder output with
        | some e => .handledError e
        | none => .success output

/-- WrapAction (part_004 lines 682-693): wrap a no-input no-output
handler by delegating to `WrapHandler` on a Full-shape handler that
ignores its synthesized empty input and returns an empty output. -/
def WrapAction (decoder : GinContext → AnyVal Unit × Option GoError)
    (encoder : Unit → Option GoError) (h : Unit → Option GoError) :
    GinContext → GinOutcome Unit :=
  WrapHandler decoder encoder (fun _ => ((), h ()))

/-- WrapGetter (part_004 lines 695-706): wrap an output-only handler by
delegating to `WrapHandler` on a Full-shape handler that ignores its
synthesized empty input. -/
def WrapGetter {O : Type} (decoder : GinContext → AnyVal Unit × Option GoError)
    (encoder : O → Option GoError) (h : Unit → O × Option GoError) :
    GinContext → GinOutcome O :=
  WrapHandler decoder encoder (fun _ => h ())

/-- WrapConsumer (part_004 lines 708-715): wrap an input-only handler by
delegating to `WrapHandler` on a Full-shape handler that discards the
output. -/
def WrapConsumer {I : Type} (decoder : GinContext → AnyVal I × Option GoError)
    (encoder : Unit → Option GoError) (h : I → Option GoError) :
    GinContext → GinOutcome Unit :=
  WrapHandler decoder encoder (fun args => ((), h args))

end GinServer

namespace RestyClient

/-- DefaultResponseDecoder (part_000 lines 166-180): an empty response
body yields the zero value of `O` with no error; otherwise
`json.Unmarshal` (the oracle `unmarshal`, returning the parsed value or
an error) runs on the bytes, an unmarshal error is returned with a nil
result value, and success yields the typed result. -/
def DefaultResponseDecoder {O : Type} [Inhabited O]
    (unmarshal : List Nat → O × Option GoError) (resp : RestyResponse) :
    AnyVal O × Option GoError :=
  if resp.bytes.length = 0 then (.typed default, none)
  else
    match unmarshal resp.bytes with
    | (_, some e) => (.other, some e)
    | (r, none) => (.typed r, none)

/-- DefaultErrorHandler (part_000 lines 184-194): a non-nil transport
error is returned as is; otherwise an error-indicating response status
becomes `errors.New(resp.Status())`; otherwise there is no error. -/
def DefaultErrorHandler (resp : RestyResponse) (err : Option GoError) :
    Option GoError :=
  match err with
  | some e => some e
  | none => if resp.isError then some (.newError resp.status) else none

/-- NewClient (part_000 lines 219-258): encode the input into a fresh
request (an encoder error aborts with the zero output), execute the
request, run the error handler on the response and transport error (an
error aborts with the zero output), decode the response (an error aborts
with the zero output), and assert the decoded `any` value to `O` (a
failed assertion yields `ErrDecoderReturnedWrongType` with the zero
output). -/
def NewClient {V I O : Type} [Inhabited O]
    (encoder : RestyRequest V → I → RestyRequest V × Option GoError)
    (execute : RestyRequest V → RestyResponse × Option GoError)
    (errorHandler : RestyResponse → Option GoError → Option GoError)
    (decoder : RestyResponse → AnyVal O × Option GoError)
    (input : I) : O × Option GoError :=
  match encoder {} input with
  | (_, some e) => (default, some e)
  | (req1, none) =>
    let r := execute req1
    match errorHandler r.1 r.2 with
    | some e => (default, some e)
    | none =>
      match decoder r.1 with
      | (_, some e) => (default, some e)
      | (resultAny, none) =>
        match resultAny with
        | .typed o => (o, none)
        | .other => (default, some .errDecoderReturnedWrongType)

/-- NewAction (part_000 lines 263-274): build the Full-shape client at
the empty input and output types, invoke it with a synthesized empty
input, and return only its error. -/
def NewAction {V : Type}
    (encoder : RestyRequest V → Unit → RestyRequest V × Option GoError)
    (execute : RestyRequest V → RestyResponse × Option GoError)
    (errorHandler : RestyResponse → Option GoError → Option GoError)
    (decoder : RestyResponse → AnyVal Unit × Option GoError) :
    Option GoError :=
  (NewClient encoder execute errorHandler decoder ()).2

/-- NewGetter (part_000 lines 278-288): build the Full-shape client at
the empty input type and invoke it with a synthesized empty input. -/
def NewGetter {V O : Type} [Inhabited O]
    (encoder : RestyRequest V → Unit → RestyRequest V × Option GoError)
    (execute : RestyRequest V → RestyResponse × Option GoError)
    (errorHandler : RestyResponse → Option GoError → Option GoError)
    (decoder : RestyResponse → AnyVal O × Option GoError) :
    O × Option GoError :=
  NewClient encoder execute errorHandler decoder ()

/-- NewConsumer (part_000 lines 292-303): build the Full-shape client at
the empty output type, pass the input through, and return only the
error. -/
def NewConsumer {V I : Type}
    (encoder : RestyRequest V → I → RestyRequest V × Option GoError)
    (execute : RestyRequest V → RestyResponse × Option GoError)
    (errorHandler : RestyResponse → Option GoError → Option GoError)
    (decoder : RestyResponse → AnyVal Unit × Option GoError)
    (args : I) : Option GoError :=
  (NewClient encoder execute errorHandler decoder args).2

end RestyClient

theorem encodeField_skip_unexported {V : Type} (acc : EncodeAcc V)
    (f : StructField V) (h : f.exported = false) :
    RestyClient.encodeField acc f = acc := by
  simp [RestyClient.encodeField, h]

theorem encodeField_skip_nilPtr {V : Type} (acc : EncodeAcc V)
    (f : StructField V) (h : f.isNilPtr = true) :
    RestyClient.encodeField acc f = acc := by
  by_cases he : f.exported <;> simp [RestyClient.encodeField, h, he]

theorem encodeField_bodyFields {V : Type} (acc : EncodeAcc V)
    (f : StructField V) :
    (RestyClient.encodeField acc f).bodyFields =
      bodyFieldStep acc.bodyFields f := by
  unfold RestyClient.encodeField bodyFieldStep isBodyTagged
  by_cases he : f.exported <;> by_cases hn : f.isNilPtr <;>
    by_cases hp : f.pathTag = "" <;> by_cases hq : f.queryTag = "" <;>
    by_cases hf : f.formTag = "" <;> by_cases hh : f.headerTag = "" <;>
    by_cases hj : f.jsonTag = "" <;>
    simp [he, hn, hp, hq, hf, hh, hj]

theorem encodeField_hasBodyTag {V : Type} (acc : EncodeAcc V)
    (f : StructField V) :
    (RestyClient.encodeField acc f).hasBodyTag =
      (acc.hasBodyTag || isBodyTagged f) := by
  unfold RestyClient.encodeField isBodyTagged
  by_cases he : f.exported <;> by_cases hn : f.isNilPtr <;>
    by_cases hp : f.pathTag = "" <;> by_cases hq : f.queryTag = "" <;>
    by_cases hf : f.formTag = "" <;> by_cases hh : f.headerTag = "" <;>
    by_cases hj : f.jsonTag = "" <;>
    simp [he, hn, hp, hq, hf, hh, hj]

theorem foldl_encodeField_bodyFields {V : Type}
    (fields : List (StructField V)) (acc : EncodeAcc V) :
    (fields.foldl RestyClient.encodeField acc).bodyFields =
      fields.foldl bodyFieldStep acc.bodyFields := by
  induction fields generalizing acc with
  | nil => rfl
  | cons f fs ih =>
    simp only [List.foldl_cons, ih, encodeField_bodyFields]

theorem foldl_encodeField_hasBodyTag {V : Type}
    (fields : List (StructField V)) (acc : EncodeAcc V) :
    (fields.foldl RestyClient.encodeField acc).hasBodyTag =
      (acc.hasBodyTag || hasBodyTagged fields) := by
  induction fields generalizing acc with
  | nil => simp [hasBodyTagged]
  | cons f fs ih =>
    simp only [List.foldl_cons, ih, encodeField_hasBodyTag, hasBodyTagged,
      List.any_cons, Bool.or_assoc]

theorem foldl_encodeField_no_tags {V : Type} (fields : List (StructField V))
    (acc : EncodeAcc V)
    (hall : ∀ f ∈ fields, f.pathTag = "" ∧ f.queryTag = "" ∧ f.formTag = "" ∧
      f.headerTag = "" ∧ f.jsonTag = "") :
    fields.foldl RestyClient.encodeField acc = acc := by
  induction fields generalizing acc with
  | nil => rfl
  | cons f fs ih =>
    have hf := hall f (List.mem_cons_self f fs)
    have hstep : RestyClient.encodeField acc f = acc := by
      by_cases he : f.exported <;> by_cases hn : f.isNilPtr <;>
        simp [RestyClient.encodeField, he, hn, hf.1, hf.2.1, hf.2.2.1,
          hf.2.2.2.1, hf.2.2.2.2]
    rw [List.foldl_cons, hstep]
    exact ih acc (fun g hg => hall g (List.mem_cons_of_mem f hg))

theorem foldl_bodyFieldStep_dash {V : Type} (fields : List (StructField V))
    (m : List (String × V))
    (h2 : ∀ f ∈ fields, isBodyTagged f = true → jsonNameOf f.jsonTag = "-") :
    fields.foldl bodyFieldStep m = m := by
  induction fields generalizing m with
  | nil => rfl
  | cons f fs ih =>
    have hstep : bodyFieldStep m f = m := by
      unfold bodyFieldStep
      by_cases hb : isBodyTagged f
      · simp [h2 f (List.mem_cons_self f fs) hb]
      · simp [hb]
    rw [List.foldl_cons, hstep]
    exact ih m (fun g hg => h2 g (List.mem_cons_of_mem f hg))

theorem DefaultRequestEncoder_structVal {V : Type} (req : RestyRequest V)
    (fields : List (StructField V)) (whole : V) :
    RestyClient.DefaultRequestEncoder req (.structVal fields whole) =
      (let acc := fields.foldl RestyClient.encodeField emptyAcc
       ({ pathParams :=
            if 0 < acc.pathParams.length then
              setParams req.pathParams acc.pathParams
            else req.pathParams,
          queryParams :=
            if 0 < acc.queryParams.length then
              setParams req.queryParams acc.queryParams
            else req.queryParams,
          headers :=
            if 0 < acc.headers.length then
              setParams req.headers acc.headers
            else req.headers,
          body :=
            if acc.hasBodyTag ∧ 0 < acc.bodyFields.length then
              .fields acc.bodyFields
            else if ¬ acc.hasBodyTag ∧ acc.pathParams.length = 0 ∧
                    acc.queryParams.length = 0 ∧ acc.headers.length = 0 then
              .whole whole
            else req.body }, none)) := by
  simp only [RestyClient.DefaultRequestEncoder]
  split_ifs <;> rfl

/-- Claim C3: the default outbound encoder is total (it returns no error
for any input), and on a null input (nil interface value or nil pointer)
it additionally leaves the outgoing request completely untouched: no path
parameter, query parameter, header, or body is set. -/
theorem C3_encoder_total_and_nil_noop {V : Type} (req : RestyRequest V)
    (input : GoInput V) :
    (RestyClient.DefaultRequestEncoder req input).2 = none ∧
    RestyClient.DefaultRequestEncoder req .nilInterface = (req, none) ∧
    RestyClient.DefaultRequestEncoder req .nilPtr = (req, none) := by
  refine ⟨?_, rfl, rfl⟩
  cases input <;> rfl

/-- Claim C4: for every exported, non-nil-pointer struct field, the first
matching tag in the order path, query, form, header, json determines its
single binding destination (each case updates exactly one destination of
the accumulator, so the alternatives are mutually exclusive), and a form
tag routes the value to the same query-parameter destination as a query
tag would. -/
theorem C4_tag_precedence {V : Type} (acc : EncodeAcc V) (f : StructField V)
    (hexp : f.exported = true) (hnil : f.isNilPtr = false) :
    (f.pathTag ≠ "" →
      RestyClient.encodeField acc f =
        { acc with pathParams := mapInsert acc.pathParams f.pathTag f.strValue }) ∧
    (f.pathTag = "" → f.queryTag ≠ "" →
      RestyClient.encodeField acc f =
        { acc with queryParams := mapInsert acc.queryParams f.queryTag f.strValue }) ∧
    (f.pathTag = "" → f.queryTag = "" → f.formTag ≠ "" →
      RestyClient.encodeField acc f =
        { acc with queryParams := mapInsert acc.queryParams f.formTag f.strValue } ∧
      RestyClient.encodeField acc f =
        RestyClient.encodeField acc { f with queryTag := f.formTag, formTag := "" }) ∧
    (f.pathTag = "" → f.queryTag = "" → f.formTag = "" → f.headerTag ≠ "" →
      RestyClient.encodeField acc f =
        { acc with headers := mapInsert acc.headers f.headerTag f.strValue }) ∧
    (f.pathTag = "" → f.queryTag = "" → f.formTag = "" → f.headerTag = "" →
      f.jsonTag ≠ "" →
      RestyClient.encodeField acc f =
        { acc with hasBodyTag := true,
                   bodyFields :=
                     if jsonNameOf f.jsonTag ≠ "-" then
                       mapInsert acc.bodyFields (jsonNameOf f.jsonTag) f.value
                     else acc.bodyFields }) := by
  refine ⟨?_, ?_, ?_, ?_, ?_⟩
  · intro h1
    simp [RestyClient.encodeField, hexp, hnil, h1]
  · intro h1 h2
    simp [RestyClient.encodeField, hexp, hnil, h1, h2]
  · intro h1 h2 h3
    refine ⟨?_, ?_⟩ <;> simp [RestyClient.encodeField, hexp, hnil, h1, h2, h3]
  · intro h1 h2 h3 h4
    simp [RestyClient.encodeField, hexp, hnil, h1, h2, h3, h4]
  · intro h1 h2 h3 h4 h5
    simp [RestyClient.encodeField, hexp, hnil, h1, h2, h3, h4, h5]

/-- Concrete instance of C4: a field tagged both path and json goes to the
path destination only. -/
theorem C4_tag_precedence_witness :
    RestyClient.encodeField (emptyAcc (V := Nat))
        ⟨true, false, "id", "", "", "", "n", "42", 0⟩ =
      { emptyAcc with pathParams := [("id", "42")] } := by
  have h := (C4_tag_precedence (V := Nat) emptyAcc
    ⟨true, false, "id", "", "", "", "n", "42", 0⟩ rfl rfl).1 (by decide)
  rw [h]; rfl

/-- Claim C5: a field whose value is a nil pointer is skipped entirely by
the default outbound encoder: processing it leaves the accumulator
unchanged, and the whole encoder gives the same request whether the field
is present or removed, so it contributes no path substitution, query
parameter, header, or body member, regardless of its tags. -/
theorem C5_nil_pointer_contributes_nothing {V : Type} (f : StructField V)
    (h : f.isNilPtr = true) :
    (∀ acc : EncodeAcc V, RestyClient.encodeField acc f = acc) ∧
    (∀ (l1 l2 : List (StructField V)) (req : RestyRequest V) (whole : V),
      RestyClient.DefaultRequestEncoder req (.structVal (l1 ++ f :: l2) whole) =
        RestyClient.DefaultRequestEncoder req (.structVal (l1 ++ l2) whole)) := by
  have hstep : ∀ acc : EncodeAcc V, RestyClient.encodeField acc f = acc :=
    fun acc => encodeField_skip_nilPtr acc f h
  refine ⟨hstep, ?_⟩
  intro l1 l2 req whole
  have hfold : (l1 ++ f :: l2).foldl RestyClient.encodeField (emptyAcc (V := V)) =
      (l1 ++ l2).foldl RestyClient.encodeField emptyAcc := by
    simp [List.foldl_append, List.foldl_cons, hstep]
  rw [DefaultRequestEncoder_structVal, DefaultRequestEncoder_structVal]
  simp only [hfold]

/-- Concrete instance of C5: a nil-pointer field carrying a path tag adds
nothing next to an ordinary query-tagged field. -/
theorem C5_nil_pointer_witness :
    RestyClient.DefaultRequestEncoder ({} : RestyRequest Nat)
        (.structVal [⟨true, true, "id", "", "", "", "", "x", 0⟩,
                     ⟨true, false, "", "q", "", "", "", "7", 7⟩] 9) =
      RestyClient.DefaultRequestEncoder {}
        (.structVal [⟨true, false, "", "q", "", "", "", "7", 7⟩] 9) :=
  (C5_nil_pointer_contributes_nothing ⟨true, true, "id", "", "", "", "", "x", 0⟩
    rfl).2 [] [⟨true, false, "", "q", "", "", "", "7", 7⟩] {} 9

/-- Counterexample to claim C1 as stated: a struct whose only field
carries the body tag `json:"-"` has a body-tagged field, yet the encoder
sets no body at all, which differs from the (empty) mapping of the
body-tagged fields. -/
theorem C1_counterexample :
    hasBodyTagged [(⟨true, false, "", "", "", "", "-", "0", 0⟩ : StructField Nat)] = true ∧
    (RestyClient.DefaultRequestEncoder ({} : RestyRequest Nat)
        (.structVal [⟨true, false, "", "", "", "", "-", "0", 0⟩] 5)).1.body ≠
      Body.fields (bodyTaggedMapping [⟨true, false, "", "", "", "", "-", "0", 0⟩]) := by
  decide

/-- Claim C1 (amended): for every struct input, if at least one field
carries a body (json) tag and the mapping of the body-tagged fields is
nonempty (that is, at least one body-tagged field's json name differs
from "-"), then the outgoing request body is exactly that mapping,
fields routed to path, query or header excluded; and if no field carries
any destination tag at all then the entire input value is set as the
body. -/
theorem C1_request_body_invariant {V : Type} (fields : List (StructField V))
    (req : RestyRequest V) (whole : V) :
    (hasBodyTagged fields = true → bodyTaggedMapping fields ≠ [] →
      (RestyClient.DefaultRequestEncoder req (.structVal fields whole)).1.body =
        .fields (bodyTaggedMapping fields)) ∧
    ((∀ f ∈ fields, f.pathTag = "" ∧ f.queryTag = "" ∧ f.formTag = "" ∧
        f.headerTag = "" ∧ f.jsonTag = "") →
      (RestyClient.DefaultRequestEncoder req (.structVal fields whole)).1.body =
        .whole whole) := by
  constructor
  · intro hb hne
    have h1 : (fields.foldl RestyClient.encodeField (emptyAcc (V := V))).hasBodyTag = true := by
      rw [foldl_encodeField_hasBodyTag]
      simp [emptyAcc, hb]
    have h2 : (fields.foldl RestyClient.encodeField (emptyAcc (V := V))).bodyFields =
        bodyTaggedMapping fields := by
      rw [foldl_encodeField_bodyFields]
      rfl
    have h3 : 0 < (fields.foldl RestyClient.encodeField (emptyAcc (V := V))).bodyFields.length := by
      rw [h2]
      cases hL : bodyTaggedMapping fields with
      | nil => exact absurd hL hne
      | cons a l => simp
    rw [DefaultRequestEncoder_structVal]
    simp only [h1, h2]
    simp [List.length_pos, hne]
  · intro hall
    have hacc : fields.foldl RestyClient.encodeField (emptyAcc (V := V)) = emptyAcc :=
      foldl_encodeField_no_tags fields emptyAcc hall
    rw [DefaultRequestEncoder_structVal]
    simp only [hacc]
    simp [emptyAcc]

/-- Concrete instance of C1 (amended): a struct with a path-tagged field
and a json-tagged field puts exactly the json field in the body; a struct
with only untagged fields becomes the whole body. -/
theorem C1_request_body_witness :
    (RestyClient.DefaultRequestEncoder ({} : RestyRequest Nat)
        (.structVal [⟨true, false, "id", "", "", "", "", "42", 42⟩,
                     ⟨true, false, "", "", "", "", "t", "3", 3⟩] 9)).1.body =
      Body.fields [("t", 3)] ∧
    (RestyClient.DefaultRequestEncoder ({} : RestyRequest Nat)
        (.structVal [⟨true, false, "", "", "", "", "", "3", 3⟩] 9)).1.body =
      Body.whole 9 := by
  constructor
  · have h := (C1_request_body_invariant
      [⟨true, false, "id", "", "", "", "", "42", 42⟩,
       ⟨true, false, "", "", "", "", "t", "3", 3⟩] ({} : RestyRequest Nat) 9).1
      (by decide) (by decide)
    rw [h]
    rfl
  · exact (C1_request_body_invariant _ ({} : RestyRequest Nat) 9).2 (by decide)

/-- Claim C10: when at least one field carries a json tag that the
encoder reaches, but every such body-tagged field has json name "-" (so
the collected body-field map is empty), the encoder leaves the request
body exactly as it found it — it sets neither the body-field subset nor
the whole input value — even when the struct also has untagged fields. -/
theorem C10_all_dash_body_unset {V : Type} (fields : List (StructField V))
    (req : RestyRequest V) (whole : V)
    (h1 : hasBodyTagged fields = true)
    (h2 : ∀ f ∈ fields, isBodyTagged f = true → jsonNameOf f.jsonTag = "-") :
    (RestyClient.DefaultRequestEncoder req (.structVal fields whole)).1.body =
      req.body := by
  have hbt : (fields.foldl RestyClient.encodeField (emptyAcc (V := V))).hasBodyTag = true := by
    rw [foldl_encodeField_hasBodyTag]
    simp [emptyAcc, h1]
  have hbf : (fields.foldl RestyClient.encodeField (emptyAcc (V := V))).bodyFields = [] := by
    rw [foldl_encodeField_bodyFields]
    exact foldl_bodyFieldStep_dash fields _ h2
  rw [DefaultRequestEncoder_structVal]
  simp [hbt, hbf]

/-- Concrete instance of C10: one `json:"-"` field next to an untagged
field leaves the body unset. -/
theorem C10_all_dash_body_unset_witness :
    (RestyClient.DefaultRequestEncoder ({} : RestyRequest Nat)
        (.structVal [⟨true, false, "", "", "", "", "-", "0", 0⟩,
                     ⟨true, false, "", "", "", "", "", "1", 1⟩] 5)).1.body =
      Body.unset :=
  C10_all_dash_body_unset
    [⟨true, false, "", "", "", "", "-", "0", 0⟩,
     ⟨true, false, "", "", "", "", "", "1", 1⟩] {} 5 (by decide) (by decide)

/-- Claim C2: the default inbound decoder runs at most the three binding
passes in the fixed order path parameters, request body, query
parameters; a pass whose data source is empty is skipped (the result
does not depend on its binding function); and the first pass returning
an error ends decoding with exactly that error while later passes do not
run (the result does not depend on their binding functions). -/
theorem C2_decoder_order_and_abort {I : Type} [Inhabited I] (c : GinContext)
    (u b q : GinContext → I → I × Option GoError) :
    (c.params = [] → ∀ u',
      GinServer.DefaultDecoder u b q c = GinServer.DefaultDecoder u' b q c) ∧
    (¬ 0 < c.contentLength → ∀ b',
      GinServer.DefaultDecoder u b q c = GinServer.DefaultDecoder u b' q c) ∧
    (c.queryPairs = [] → ∀ q',
      GinServer.DefaultDecoder u b q c = GinServer.DefaultDecoder u b q' c) ∧
    (∀ a e, 0 < c.params.length → u c default = (a, some e) →
      GinServer.DefaultDecoder u b q c = (a, some e)) ∧
    (∀ a1 a e, GinServer.bindPass (0 < c.params.length) u c default = (a1, none) →
      0 < c.contentLength → b c a1 = (a, some e) →
      GinServer.DefaultDecoder u b q c = (a, some e)) ∧
    (∀ a1 a2 a e, GinServer.bindPass (0 < c.params.length) u c default = (a1, none) →
      GinServer.bindPass (0 < c.contentLength) b c a1 = (a2, none) →
      0 < c.queryPairs.length → q c a2 = (a, some e) →
      GinServer.DefaultDecoder u b q c = (a, some e)) := by
  refine ⟨?_, ?_, ?_, ?_, ?_, ?_⟩
  · intro h u'
    simp [GinServer.DefaultDecoder, GinServer.bindPass, h]
  · intro h b'
    unfold GinServer.DefaultDecoder
    cases hu : GinServer.bindPass (0 < c.params.length) u c default with
    | mk a1 e1 =>
      cases e1 with
      | some e => simp
      | none => simp [GinServer.bindPass, h]
  · intro h q'
    unfold GinServer.DefaultDecoder
    cases hu : GinServer.bindPass (0 < c.params.length) u c default with
    | mk a1 e1 =>
      cases e1 with
      | some e => simp
      | none =>
        cases hb : GinServer.bindPass (0 < c.contentLength) b c a1 with
        | mk a2 e2 =>
          cases e2 with
          | some e => simp [hb]
          | none => simp [hb, GinServer.bindPass, h]
  · intro a e hp hu
    simp [GinServer.DefaultDecoder, GinServer.bindPass, hp, hu]
  · intro a1 a e h1 hc hb
    unfold GinServer.DefaultDecoder
    rw [h1]
    simp [GinServer.bindPass, hc, hb]
  · intro a1 a2 a e h1 h2 hq hres
    unfold GinServer.DefaultDecoder
    rw [h1]
    dsimp only
    rw [h2]
    simp [GinServer.bindPass, hq, hres]

/-- Concrete instance of C2: a request with one URI parameter whose URI
binding fails returns that error and never consults the body or query
binders. -/
theorem C2_decoder_order_witness :
    GinServer.DefaultDecoder (I := Nat)
        (fun _ _ => (5, some (.newError "uri bind failed")))
        (fun _ a => (a + 100, none)) (fun _ a => (a + 1000, none))
        ⟨[("id", "1")], 0, []⟩ =
      (5, some (.newError "uri bind failed")) :=
  (C2_decoder_order_and_abort ⟨[("id", "1")], 0, []⟩
      (fun _ _ => (5, some (.newError "uri bind failed")))
      (fun _ a => (a + 100, none))
      (fun _ a => (a + 1000, none))).2.2.2.1 5 (.newError "uri bind failed")
    (by decide) rfl

theorem NewClient_cases {V I O : Type} [Inhabited O]
    (encoder : RestyRequest V → I → RestyRequest V × Option GoError)
    (execute : RestyRequest V → RestyResponse × Option GoError)
    (errorHandler : RestyResponse → Option GoError → Option GoError)
    (decoder : RestyResponse → AnyVal O × Option GoError) (input : I) :
    (∃ e, RestyClient.NewClient encoder execute errorHandler decoder input =
      (default, some e)) ∨
    (∃ o, RestyClient.NewClient encoder execute errorHandler decoder input =
      (o, none)) := by
  cases h1 : encoder ({} : RestyRequest V) input with
  | mk r1 e1 =>
    cases e1 with
    | some e => exact Or.inl ⟨e, by simp [RestyClient.NewClient, h1]⟩
    | none =>
      cases h2 : errorHandler (execute r1).1 (execute r1).2 with
      | some e => exact Or.inl ⟨e, by simp [RestyClient.NewClient, h1, h2]⟩
      | none =>
        cases h3 : decoder (execute r1).1 with
        | mk av e3 =>
          cases e3 with
          | some e =>
            exact Or.inl ⟨e, by simp [RestyClient.NewClient, h1, h2, h3]⟩
          | none =>
            cases av with
            | typed o =>
              exact Or.inr ⟨o, by simp [RestyClient.NewClient, h1, h2, h3]⟩
            | other =>
              exact Or.inl ⟨.errDecoderReturnedWrongType,
                by simp [RestyClient.NewClient, h1, h2, h3]⟩

/-- Claim C6: a custom encoder error aborts the client call with that
error before any request is sent (the result does not depend on the
transport, error handler, or decoder); with the default error handler,
the pipeline then propagates the first non-nil error among the transport
error, the declared-error-status error built from the response status
text, and the decode error, in that order; and in every error case the
client returns the zero value of the output type. -/
theorem C6_client_error_precedence {V I O : Type} [Inhabited O] (input : I) :
    (∀ (encoder : RestyRequest V → I → RestyRequest V × Option GoError)
       (r : RestyRequest V) (e : GoError), encoder {} input = (r, some e) →
      ∀ execute errorHandler (decoder : RestyResponse → AnyVal O × Option GoError),
        RestyClient.NewClient encoder execute errorHandler decoder input =
          (default, some e)) ∧
    (∀ (encoder : RestyRequest V → I → RestyRequest V × Option GoError)
       execute (decoder : RestyResponse → AnyVal O × Option GoError)
       (req1 : RestyRequest V) resp te,
      encoder {} input = (req1, none) → execute req1 = (resp, some te) →
      RestyClient.NewClient encoder execute RestyClient.DefaultErrorHandler
          decoder input = (default, some te)) ∧
    (∀ (encoder : RestyRequest V → I → RestyRequest V × Option GoError)
       execute (decoder : RestyResponse → AnyVal O × Option GoError)
       (req1 : RestyRequest V) resp,
      encoder {} input = (req1, none) → execute req1 = (resp, none) →
      resp.isError = true →
      RestyClient.NewClient encoder execute RestyClient.DefaultErrorHandler
          decoder input = (default, some (.newError resp.status))) ∧
    (∀ (encoder : RestyRequest V → I → RestyRequest V × Option GoError)
       execute (decoder : RestyResponse → AnyVal O × Option GoError)
       (req1 : RestyRequest V) resp av de,
      encoder {} input = (req1, none) → execute req1 = (resp, none) →
      resp.isError = false → decoder resp = (av, some de) →
      RestyClient.NewClient encoder execute RestyClient.DefaultErrorHandler
          decoder input = (default, some de)) ∧
    (∀ (encoder : RestyRequest V → I → RestyRequest V × Option GoError)
       execute errorHandler (decoder : RestyResponse → AnyVal O × Option GoError),
      (RestyClient.NewClient encoder execute errorHandler decoder input).2 ≠ none →
      (RestyClient.NewClient encoder execute errorHandler decoder input).1 =
        default) := by
  refine ⟨?_, ?_, ?_, ?_, ?_⟩
  · intro encoder r e h execute errorHandler decoder
    simp [RestyClient.NewClient, h]
  · intro encoder execute decoder req1 resp te h1 h2
    simp [RestyClient.NewClient, h1, h2, RestyClient.DefaultErrorHandler]
  · intro encoder execute decoder req1 resp h1 h2 h3
    simp [RestyClient.NewClient, h1, h2, h3, RestyClient.DefaultErrorHandler]
  · intro encoder execute decoder req1 resp av de h1 h2 h3 h4
    simp [RestyClient.NewClient, h1, h2, h3, h4, RestyClient.DefaultErrorHandler]
  · intro encoder execute errorHandler decoder hne
    rcases NewClient_cases encoder execute errorHandler decoder input with
      ⟨e, heq⟩ | ⟨o, heq⟩
    · rw [heq]
    · rw [heq] at hne
      exact absurd rfl hne

/-- Concrete instance of C6: an encoder error aborts the call with that
error and the zero output, whatever the transport would have done. -/
theorem C6_client_error_precedence_witness :
    RestyClient.NewClient (V := Nat) (I := Nat) (O := Nat)
        (fun r _ => (r, some (.newError "encode failed")))
        (fun _ => (⟨[1], true, "500"⟩, none))
        RestyClient.DefaultErrorHandler
        (fun _ => (.typed 7, none)) 1 =
      (0, some (.newError "encode failed")) :=
  (C6_client_error_precedence 1).1 (fun r _ => (r, some (.newError "encode failed")))
    {} (.newError "encode failed") rfl (fun _ => (⟨[1], true, "500"⟩, none))
    RestyClient.DefaultErrorHandler (fun _ => (.typed 7, none))

/-- Claim C7: a decoder that returns, without error, a value of the
wrong runtime type makes the client pipeline return the dedicated
sentinel `ErrDecoderReturnedWrongType` with the zero output, makes the
server pipeline hand the same sentinel to the error handler without
running the business handler or the encoder, and this sentinel is a
value distinct from any status error, any library error, and the
encoder sentinel. -/
theorem C7_wrong_type_sentinel {V I O : Type} [Inhabited O] :
    (∀ (encoder : RestyRequest V → I → RestyRequest V × Option GoError)
       execute errorHandler (decoder : RestyResponse → AnyVal O × Option GoError)
       (input : I) (req1 : RestyRequest V) resp terr,
      encoder {} input = (req1, none) → execute req1 = (resp, terr) →
      errorHandler resp terr = none → decoder resp = (.other, none) →
      RestyClient.NewClient encoder execute errorHandler decoder input =
        (default, some .errDecoderReturnedWrongType)) ∧
    (∀ (decoder : GinContext → AnyVal I × Option GoError)
       (encoder : O → Option GoError) (h : I → O × Option GoError) c,
      decoder c = (.other, none) →
      GinServer.WrapHandler decoder encoder h c =
        .handledError .errDecoderReturnedWrongType) ∧
    (∀ s t : String, GoError.errDecoderReturnedWrongType ≠ .newError s ∧
      GoError.errDecoderReturnedWrongType ≠ .external t ∧
      GoError.errDecoderReturnedWrongType ≠ .errEncoderReceivedWrongType) := by
  refine ⟨?_, ?_, ?_⟩
  · intro encoder execute errorHandler decoder input req1 resp terr h1 h2 h3 h4
    simp [RestyClient.NewClient, h1, h2, h3, h4]
  · intro decoder encoder h c hdec
    simp [GinServer.WrapHandler, hdec]
  · intro s t
    refine ⟨?_, ?_, ?_⟩ <;> simp

/-- Concrete instance of C7: a decoder returning a wrong-typed value on
a successful response yields the sentinel on the client side and hands
it to the error handler on the server side. -/
theorem C7_wrong_type_sentinel_witness :
    RestyClient.NewClient (V := Nat) (I := Nat) (O := Nat)
        (fun r _ => (r, none)) (fun _ => (⟨[1], false, "200 OK"⟩, none))
        RestyClient.DefaultErrorHandler (fun _ => (.other, none)) 1 =
      (0, some .errDecoderReturnedWrongType) ∧
    GinServer.WrapHandler (I := Nat) (O := Nat) (fun _ => (.other, none))
        (fun _ => none) (fun n => (n, none)) ⟨[], 0, []⟩ =
      .handledError .errDecoderReturnedWrongType := by
  constructor
  · exact (C7_wrong_type_sentinel (V := Nat) (I := Nat) (O := Nat)).1 (fun r _ => (r, none))
      (fun _ => (⟨[1], false, "200 OK"⟩, none)) RestyClient.DefaultErrorHandler
      (fun _ => (.other, none)) 1 {} ⟨[1], false, "200 OK"⟩ none rfl rfl
      (by simp [RestyClient.DefaultErrorHandler]) rfl
  · exact (C7_wrong_type_sentinel (V := Nat) (I := Nat) (O := Nat)).2.1
      (fun _ => (.other, none)) (fun _ => none)
      (fun n => (n, none)) ⟨[], 0, []⟩ rfl

/-- Claim C8: on both sides, the Action, Getter, and Consumer variants
are exactly the Full pipeline invoked with a synthesized empty input
and/or with its output discarded: each variant equals the corresponding
composition of `NewClient` or `WrapHandler`, for all encoders, decoders,
error handlers, transports, and handlers, so their error results and
observable effects coincide with the Full pipeline's and no
encode/decode/error logic is duplicated. -/
theorem C8_arity_wrapper_equivalence {V I O : Type} [Inhabited O] :
    (∀ (encoder : RestyRequest V → Unit → RestyRequest V × Option GoError)
       execute errorHandler (decoder : RestyResponse → AnyVal Unit × Option GoError),
      RestyClient.NewAction encoder execute errorHandler decoder =
        (RestyClient.NewClient encoder execute errorHandler decoder ()).2) ∧
    (∀ (encoder : RestyRequest V → Unit → RestyRequest V × Option GoError)
       execute errorHandler (decoder : RestyResponse → AnyVal O × Option GoError),
      RestyClient.NewGetter encoder execute errorHandler decoder =
        RestyClient.NewClient encoder execute errorHandler decoder ()) ∧
    (∀ (encoder : RestyRequest V → I → RestyRequest V × Option GoError)
       execute errorHandler (decoder : RestyResponse → AnyVal Unit × Option GoError)
       (args : I),
      RestyClient.NewConsumer encoder execute errorHandler decoder args =
        (RestyClient.NewClient encoder execute errorHandler decoder args).2) ∧
    (∀ (decoder : GinContext → AnyVal Unit × Option GoError)
       (encoder : Unit → Option GoError) (h : Unit → Option GoError) c,
      GinServer.WrapAction decoder encoder h c =
        GinServer.WrapHandler decoder encoder (fun _ => ((), h ())) c) ∧
    (∀ (decoder : GinContext → AnyVal Unit × Option GoError)
       (encoder : O → Option GoError) (h : Unit → O × Option GoError) c,
      GinServer.WrapGetter decoder encoder h c =
        GinServer.WrapHandler decoder encoder (fun _ => h ()) c) ∧
    (∀ (decoder : GinContext → AnyVal I × Option GoError)
       (encoder : Unit → Option GoError) (h : I → Option GoError) c,
      GinServer.WrapConsumer decoder encoder h c =
        GinServer.WrapHandler decoder encoder (fun args => ((), h args)) c) :=
  ⟨fun _ _ _ _ => rfl, fun _ _ _ _ => rfl, fun _ _ _ _ _ => rfl,
   fun _ _ _ _ => rfl, fun _ _ _ _ => rfl, fun _ _ _ _ => rfl⟩

/-- Claim C9: a response whose body contains zero bytes makes the
default response decoder return the zero value of the declared output
type with no error, whatever `json.Unmarshal` would do (it is never
consulted). -/
theorem C9_empty_body_zero_value {O : Type} [Inhabited O]
    (resp : RestyResponse) (h : resp.bytes = [])
    (unmarshal : List Nat → O × Option GoError) :
    RestyClient.DefaultResponseDecoder unmarshal resp =
      (.typed default, none) := by
  simp [RestyClient.DefaultResponseDecoder, h]

/-- Concrete instance of C9: an empty body yields the zero value even
under an unmarshal oracle that would fail. -/
theorem C9_empty_body_zero_value_witness :
    RestyClient.DefaultResponseDecoder (O := Nat)
        (fun _ => (0, some (.external "unexpected end of JSON input")))
        ⟨[], false, "200 OK"⟩ =
      (.typed 0, none) :=
  C9_empty_body_zero_value ⟨[], false, "200 OK"⟩ rfl
    (fun _ => (0, some (.external "unexpected end of JSON input")))
